import Mathlib

set_option maxRecDepth 8000

/-
Verification of the request handling pipeline of proxy.c: the clienterror
response synthesizer, the doit request translator and relay, the per
connection thread wrapper, and the startup argument check of main. Machine
effects (socket reads, parser calls, descriptor closes) are embedded as
explicit inputs and as an effect record, so every function here is
executable on concrete inputs.
-/

/-- Constant MAXLINE from csapp.h, the maximum text line length. -/
def MAXLINE : Nat := 8192

/-- Constant MAXBUF from csapp.h, the maximum buffer size. -/
def MAXBUF : Nat := 8192

/-- Constant MAX_OBJECT_SIZE from proxy.c, the size of the relay transfer
buffer server_buf. -/
def MAX_OBJECT_SIZE : Nat := 100 * 1024

/-- Constant header_user_agent from proxy.c, the fixed User-Agent line. -/
def header_user_agent : String :=
  "User-Agent: Mozilla/5.0 (X11; Linux x86_64; rv:3.10.0) Gecko/20230411 Firefox/63.0.\r\n"

/-- Constant header_conn from proxy.c, the fixed Connection line. -/
def header_conn : String := "Connection: close\r\n"

/-- Constant header_proxy from proxy.c, the fixed Proxy-Connection line. -/
def header_proxy : String := "Proxy-Connection: close\r\n"

/-- Constant default_version from proxy.c, the protocol version written into
every outbound request line. -/
def default_version : String := "HTTP/1.0\r\n"

/-- Constant default_port from proxy.c, used when no port is retrieved. -/
def default_port : String := "80"

/-- Value part of the fixed User-Agent header. -/
def uaValue : String :=
  "Mozilla/5.0 (X11; Linux x86_64; rv:3.10.0) Gecko/20230411 Firefox/63.0."

/-- Body built by the snprintf call of clienterror in proxy.c; the format
arguments errnum, shortmsg and longmsg are spliced into the fixed HTML
template. -/
def errorBody (errnum shortmsg longmsg : String) : String :=
  "<!DOCTYPE html>\r\n" ++
  "<html>\r\n" ++
  "<head><title>Tiny Error</title></head>\r\n" ++
  "<body bgcolor=\"ffffff\">\r\n" ++
  "<h1>" ++ errnum ++ ": " ++ shortmsg ++ "</h1>\r\n" ++
  "<p>" ++ longmsg ++ "</p>\r\n" ++
  "<hr /><em>The Tiny Web server</em>\r\n" ++
  "</body></html>\r\n"

/-- Header block built by the second snprintf call of clienterror; bodylen is
the byte length snprintf reported for the body. -/
def errorHeaders (errnum shortmsg : String) (bodylen : Nat) : String :=
  "HTTP/1.0 " ++ errnum ++ " " ++ shortmsg ++ "\r\n" ++
  "Content-Type: text/html\r\n" ++
  "Content-Length: " ++ toString bodylen ++ "\r\n\r\n"

/-- Function clienterror from proxy.c, as the list of rio_writen calls it
makes on the client descriptor: the header block followed by the body, or no
write at all when either snprintf result would reach its fixed buffer size
(snprintf returns the untruncated length, which the code compares against
the buffer size before writing anything). -/
def clienterror (errnum shortmsg longmsg : String) : List String :=
  let body := errorBody errnum shortmsg longmsg
  let bodylen := body.utf8ByteSize
  if MAXBUF ≤ bodylen then []
  else
    let buf := errorHeaders errnum shortmsg bodylen
    if MAXLINE ≤ buf.utf8ByteSize then []
    else [buf, body]

/-- One write on the client socket: formatted text from clienterror, or a raw
byte chunk relayed from the origin. -/
inductive Chunk where
  | text (s : String)
  | bytes (bs : List Nat)
  deriving DecidableEq

/-- Modelled from the spec: the request line fields held by the http_parser
state (http_parser is declared in proxy.c but its code is not under src).
A field is none when parser_retrieve reports an error for it. Per the spec,
only a request line authority can provide host and port; doit retrieves HOST,
PATH and PORT before feeding any header line to the parser, so for an origin
form request line host is none at that point whatever Host header follows. -/
structure ParsedReq where
  method : Option String
  host : Option String
  path : Option String
  port : Option String
  deriving DecidableEq

/-- Modelled from the spec: outcome of reading and parsing the request line,
as doit observes it through rio_readlineb and parser_parse_line. eof is a
read of zero or fewer bytes; badRequestLine is a parser state other than
REQUEST. -/
inductive ReqLineResult where
  | eof
  | badRequestLine
  | parsed (p : ParsedReq)
  deriving DecidableEq

/-- Modelled from the spec: one line consumed by the header loop of doit, as
classified by the code: the blank terminator line, a line the parser rejects
(state other than HEADER), or a well formed header with its name and value.
The end of the list models end of stream on the client connection. -/
inductive HdrLine where
  | blank
  | bad
  | header (name value : String)
  deriving DecidableEq

/-- Managed header filter of doit (proxy.c lines 246 to 249): exact, case
sensitive string comparison against the four names. -/
def isManagedName (n : String) : Bool :=
  n == "Host" || n == "User-Agent" || n == "Connection" || n == "Proxy-Connection"

/-- Header accumulation loop of doit (proxy.c lines 228 to 255). Returns the
pass through headers appended to the request buffer, in order of receipt,
paired with a flag that is true when a rejected header line made the loop
write a 400 response and stop early. -/
def collectHeaders : List HdrLine → List (String × String) × Bool
  | [] => ([], false)
  | HdrLine.blank :: _ => ([], false)
  | HdrLine.bad :: _ => ([], true)
  | HdrLine.header n v :: rest =>
    let r := collectHeaders rest
    (if isManagedName n then r.1 else (n, v) :: r.1, r.2)

/-- Format of one pass through header line, as the sprintf call of doit
writes it. -/
def renderHdr (nv : String × String) : String :=
  nv.1 ++ ": " ++ nv.2 ++ "\r\n"

/-- Lines concatenated into the request buffer by doit (proxy.c lines 214 to
256): the request line with the fixed version string, the Host header, the
three fixed header lines, each pass through header, and the terminating
blank line. -/
def outboundLines (method path host port : String)
    (pass : List (String × String)) : List String :=
  (method ++ " " ++ path ++ " " ++ default_version) ::
  ("Host: " ++ host ++ ":" ++ port ++ "\r\n") ::
  header_user_agent :: header_conn :: header_proxy ::
  (pass.map renderHdr ++ ["\r\n"])

/-- Content of the request buffer sent to the origin, the concatenation of
all the lines doit accumulated. -/
def buildRequest (method path host port : String)
    (pass : List (String × String)) : String :=
  String.join (outboundLines method path host port pass)

/-- Modelled from the spec: rio_readnb (csapp, not under src) fills the
transfer buffer with at most MAX_OBJECT_SIZE bytes per call and returns zero
exactly at end of stream. The fuel argument, instantiated with the length of
the stream, only makes the recursion structural; every call on a nonempty
stream consumes at least one byte. -/
def relayLoop : Nat → List Nat → List (List Nat)
  | _, [] => []
  | 0, _ :: _ => []
  | fuel + 1, b :: rest =>
    (b :: rest).take MAX_OBJECT_SIZE :: relayLoop fuel ((b :: rest).drop MAX_OBJECT_SIZE)

/-- Relay loop of doit (proxy.c lines 287 to 291): the chunks written to the
client, one per rio_readnb call, until the origin closes. -/
def relayChunks (resp : List Nat) : List (List Nat) :=
  relayLoop resp.length resp

/-- Observable effects of one doit call: writes to the client socket in
program order, whether open_clientfd was called, the writes to the origin
socket, how many times doit itself closed the client descriptor, and the
return value. -/
structure DoitResult where
  clientOut : List Chunk
  originDialed : Bool
  originOut : List String
  clientCloses : Nat
  ret : Int
  deriving DecidableEq

/-- Client writes of the 400 response for a malformed request line. -/
def err400request : List Chunk :=
  (clienterror ("400") ("Bad Request") ("Proxy received a malformed request")).map Chunk.text

/-- Client writes of the 400 response doit emits both for a rejected header
line and for an open_clientfd failure (the code reuses the same message). -/
def err400headers : List Chunk :=
  (clienterror ("400") ("Bad Request") ("Proxy could not parse request headers")).map Chunk.text

/-- Client writes of the 501 response for a method other than GET. -/
def err501 : List Chunk :=
  (clienterror ("501") ("Not Implemented") ("Proxy does not implement this method")).map Chunk.text

/-- Forwarding stage of doit once method, host, path and port are in hand
(proxy.c lines 214 to 294): run the header loop, build the request buffer,
dial the origin, send the request and relay the response. A failed dial
writes a 400 and returns without closing the client descriptor. The
rio_writen call that sends the request is modelled as succeeding. -/
def doitForward (method path host port : String) (hdrs : List HdrLine)
    (connectOk : Bool) (originResp : List Nat) : DoitResult :=
  let c := collectHeaders hdrs
  let hdrErrOut : List Chunk := if c.2 then err400headers else []
  let request := buildRequest method path host port c.1
  if connectOk then
    ⟨hdrErrOut ++ (relayChunks originResp).map Chunk.bytes, true, [request], 0, 0⟩
  else
    ⟨hdrErrOut ++ err400headers, true, [], 0, -1⟩

/-- Field retrieval stage of doit (proxy.c lines 177 to 212). A retrieval
error for METHOD, HOST or PATH closes the client descriptor and returns -1
without writing anything; a method other than GET writes a 501 and closes; a
missing PORT falls back to default_port. -/
def doitParsed (p : ParsedReq) (hdrs : List HdrLine) (connectOk : Bool)
    (originResp : List Nat) : DoitResult :=
  match p.method with
  | none => ⟨[], false, [], 1, -1⟩
  | some method =>
    if method ≠ "GET" then ⟨err501, false, [], 1, -1⟩
    else
      match p.host with
      | none => ⟨[], false, [], 1, -1⟩
      | some host =>
        match p.path with
        | none => ⟨[], false, [], 1, -1⟩
        | some path =>
          doitForward method path host (p.port.getD default_port) hdrs connectOk originResp

/-- Function doit from proxy.c, over the classified inputs: the request line
outcome, the classified header lines, whether open_clientfd succeeds, and
the origin response bytes. An empty first read closes and returns; a
malformed request line writes a 400, closes and returns. -/
def doit (rl : ReqLineResult) (hdrs : List HdrLine) (connectOk : Bool)
    (originResp : List Nat) : DoitResult :=
  match rl with
  | ReqLineResult.eof => ⟨[], false, [], 1, -1⟩
  | ReqLineResult.badRequestLine => ⟨err400request, false, [], 1, -1⟩
  | ReqLineResult.parsed p => doitParsed p hdrs connectOk originResp

/-- Function thread from proxy.c: it runs doit on the connection and then
closes the client descriptor once more, unconditionally. The second
component counts every close of the client descriptor across the whole
handling unit. -/
def thread (rl : ReqLineResult) (hdrs : List HdrLine) (connectOk : Bool)
    (originResp : List Nat) : DoitResult × Nat :=
  let r := doit rl hdrs connectOk originResp
  (r, r.clientCloses + 1)

/-- Startup outcome of main: whether the usage message was printed, the exit
status when main exits during startup, and whether a listening socket was
bound. -/
structure StartupResult where
  usagePrinted : Bool
  exitStatus : Option Nat
  boundSocket : Bool
  deriving DecidableEq

/-- Argument check and listen setup of main (proxy.c lines 83 to 101): when
argc differs from 2 it prints the usage line and calls exit(0), before any
socket call; otherwise it binds the listening socket, or exits with status 1
when open_listenfd fails. -/
def mainStartup (argc : Nat) (listenOk : Bool) : StartupResult :=
  if argc ≠ 2 then ⟨true, some 0, false⟩
  else if listenOk then ⟨false, none, true⟩
  else ⟨false, some 1, false⟩

/-- Projection keeping only the raw relayed byte chunks of a client write. -/
def chunkBytes : Chunk → Option (List Nat)
  | Chunk.text _ => none
  | Chunk.bytes bs => some bs

/-- Raw bytes relayed to the client, in order, all text writes removed. -/
def relayedBytes (r : DoitResult) : List Nat :=
  (r.clientOut.filterMap chunkBytes).flatten

/-- Body of the 400 response used on the header error path of doit. -/
def body400headers : String :=
  errorBody ("400") ("Bad Request") ("Proxy could not parse request headers")

/-- Body of the 501 response for an unsupported method. -/
def body501 : String :=
  errorBody ("501") ("Not Implemented") ("Proxy does not implement this method")

/-- Headers selected by exact name among a list of name and value pairs. -/
def pairsNamed (name : String) (l : List (String × String)) : List (String × String) :=
  l.filter (fun nv => nv.1 == name)

/-- Header name and value pairs carried by the outbound request, in order:
the four mandatory headers then the pass through headers. -/
def outboundHeaderPairs (host port : String)
    (pass : List (String × String)) : List (String × String) :=
  ("Host", host ++ ":" ++ port) ::
  ("User-Agent", uaValue) ::
  ("Connection", "close") ::
  ("Proxy-Connection", "close") :: pass

/-- An overlong message used to exhibit the overflow branch of clienterror. -/
def overflowMsg : String := String.mk (List.replicate MAXBUF 'a')

/-- Byte length of an appended string is the sum of the byte lengths. -/
theorem utf8Size_append (a b : String) :
    (a ++ b).utf8ByteSize = a.utf8ByteSize + b.utf8ByteSize := by
  cases a with
  | mk d1 =>
    cases b with
    | mk d2 =>
      show (String.mk (d1 ++ d2)).utf8ByteSize = _
      simp [String.utf8ByteSize_mk, String.utf8Len_append]

/-- Byte length of a replicated character list. -/
theorem utf8Len_replicate (n : Nat) (c : Char) :
    String.utf8Len (List.replicate n c) = n * c.utf8Size := by
  induction n with
  | zero => simp
  | succ m ih => simp [List.replicate_succ, String.utf8Len_cons, ih]; ring

/-- With method GET and host and path retrieved, doit reduces to its
forwarding stage at the retrieved fields. -/
theorem doit_parsed_GET (host path : String) (pt : Option String)
    (hdrs : List HdrLine) (c : Bool) (resp : List Nat) :
    doit (ReqLineResult.parsed ⟨some ("GET"), some host, some path, pt⟩) hdrs c resp
      = doitForward ("GET") path host (pt.getD default_port) hdrs c resp := rfl

/-- Effects of the forwarding stage when the dial succeeds. -/
theorem doitForward_connect (method path host port : String)
    (hdrs : List HdrLine) (resp : List Nat) :
    doitForward method path host port hdrs true resp
      = ⟨(if (collectHeaders hdrs).2 then err400headers else [])
           ++ (relayChunks resp).map Chunk.bytes,
         true, [buildRequest method path host port (collectHeaders hdrs).1], 0, 0⟩ := rfl

/-- Every pass through header kept by the header loop has a name different
from all four managed names. -/
theorem collectHeaders_unmanaged (hdrs : List HdrLine) :
    ∀ nv ∈ (collectHeaders hdrs).1, isManagedName nv.1 = false := by
  induction hdrs with
  | nil => simp [collectHeaders]
  | cons h rest ih =>
    cases h with
    | blank => simp [collectHeaders]
    | bad => simp [collectHeaders]
    | header n v =>
      intro nv hnv
      simp only [collectHeaders] at hnv
      by_cases hm : isManagedName n = true
      · exact ih nv (by simpa [hm] using hnv)
      · rcases List.mem_cons.mp (by simpa [hm] using hnv) with h1 | h2
        · subst h1; simpa using hm
        · exact ih nv h2

/-- Flattening the relay loop output recovers the stream when the fuel
covers its length. -/
theorem relayLoop_flatten (fuel : Nat) (l : List Nat) (h : l.length ≤ fuel) :
    (relayLoop fuel l).flatten = l := by
  induction fuel generalizing l with
  | zero =>
    cases l with
    | nil => simp [relayLoop]
    | cons b rest => simp at h
  | succ n ih =>
    cases l with
    | nil => simp [relayLoop]
    | cons b rest =>
      have hM : MAX_OBJECT_SIZE = 102400 := rfl
      have hd : ((b :: rest).drop MAX_OBJECT_SIZE).length
          = (b :: rest).length - MAX_OBJECT_SIZE := List.length_drop _ _
      have hlen : (b :: rest).length ≤ n + 1 := h
      simp only [relayLoop, List.flatten_cons]
      rw [ih ((b :: rest).drop MAX_OBJECT_SIZE) (by simp at hlen ⊢; omega)]
      exact List.take_append_drop _ _

/-- Flattening the relay chunks recovers the origin response exactly. -/
theorem relayChunks_flatten (resp : List Nat) :
    (relayChunks resp).flatten = resp :=
  relayLoop_flatten resp.length resp (Nat.le_refl _)

/-- Text writes contribute no relayed bytes. -/
theorem chunkBytes_map_text (l : List String) :
    (l.map Chunk.text).filterMap chunkBytes = [] := by
  induction l with
  | nil => rfl
  | cons a t ih => simp [List.filterMap_cons, chunkBytes, ih]

/-- Byte chunks pass through the relayed byte projection unchanged. -/
theorem chunkBytes_map_bytes (l : List (List Nat)) :
    (l.map Chunk.bytes).filterMap chunkBytes = l := by
  induction l with
  | nil => rfl
  | cons a t ih => simp [List.filterMap_cons, chunkBytes, ih]

/-- Text writes contribute no relayed bytes, composition form. -/
theorem chunkBytes_comp_text (l : List String) :
    l.filterMap (chunkBytes ∘ Chunk.text) = [] := by
  induction l with
  | nil => rfl
  | cons a t ih => simp [List.filterMap_cons, chunkBytes, Function.comp, ih]

/-- Byte chunks pass through the projection unchanged, composition form. -/
theorem chunkBytes_comp_bytes (l : List (List Nat)) :
    l.filterMap (chunkBytes ∘ Chunk.bytes) = l := by
  induction l with
  | nil => rfl
  | cons a t ih => simp [List.filterMap_cons, chunkBytes, Function.comp, ih]

/-- The Host line written by doit is the rendering of the Host pair. -/
theorem hostLine_renderHdr (host port : String) :
    "Host: " ++ host ++ ":" ++ port ++ "\r\n"
      = renderHdr ("Host", host ++ ":" ++ port) := by
  simp only [renderHdr]
  rw [show ("Host" ++ ": " : String) = "Host: " from rfl]
  simp [String.append_assoc]

/-- Headers kept by the header loop never carry a managed name. -/
theorem pairsNamed_pass_nil (name : String) (hname : isManagedName name = true)
    (hdrs : List HdrLine) :
    pairsNamed name (collectHeaders hdrs).1 = [] := by
  rw [pairsNamed, List.filter_eq_nil_iff]
  intro nv hnv
  have h := collectHeaders_unmanaged hdrs nv hnv
  simp only [isManagedName, Bool.or_eq_false_iff, beq_eq_false_iff_ne, ne_eq] at h
  simp only [isManagedName, Bool.or_eq_true, beq_iff_eq] at hname
  simp only [beq_iff_eq]
  obtain ((rfl | rfl) | rfl) | rfl := hname <;> tauto

/-- Claim C7: for every status code, reason phrase and message, clienterror
either writes the complete fixed template response, whose Content-Length is
computed from the byte length of the actual serialized body, or writes
nothing at all when the serialized body would reach its buffer size MAXBUF
or the serialized header block would reach its buffer size MAXLINE; both
branches are realized, the overflow branch by an overlong message and the
normal branch by the 501 message of the proxy. -/
theorem clienterror_template_or_nothing (e s l : String) :
    (clienterror e s l =
      if MAXBUF ≤ (errorBody e s l).utf8ByteSize
          ∨ MAXLINE ≤ (errorHeaders e s (errorBody e s l).utf8ByteSize).utf8ByteSize
        then []
        else [errorHeaders e s (errorBody e s l).utf8ByteSize, errorBody e s l])
    ∧ clienterror ("400") ("Bad Request") overflowMsg = []
    ∧ clienterror ("501") ("Not Implemented") ("Proxy does not implement this method")
        = [errorHeaders ("501") ("Not Implemented") body501.utf8ByteSize, body501] := by
  refine ⟨?_, ?_, ?_⟩
  · simp only [clienterror]
    by_cases h1 : MAXBUF ≤ (errorBody e s l).utf8ByteSize
    · simp [h1]
    · by_cases h2 : MAXLINE ≤ (errorHeaders e s (errorBody e s l).utf8ByteSize).utf8ByteSize
      · simp [h1, h2]
      · simp [h1, h2]
  · have hov : overflowMsg.utf8ByteSize = MAXBUF := by
      rw [overflowMsg, String.utf8ByteSize_mk, utf8Len_replicate]
      decide
    have hbig : MAXBUF ≤ (errorBody ("400") ("Bad Request") overflowMsg).utf8ByteSize := by
      simp only [errorBody, utf8Size_append, hov]
      omega
    simp only [clienterror]
    rw [if_pos hbig]
  · decide

/-- Claim C3: for every request whose method is not exactly GET, doit dials
no origin, writes the 501 response, closes and returns -1; and the 501
response consists of the header block, whose Content-Length is the byte
length of the 501 body, followed by exactly that body. -/
theorem nonGET_501 (m : String) (hm : m ≠ "GET") (h1 p1 pt : Option String)
    (hdrs : List HdrLine) (c : Bool) (resp : List Nat) :
    doit (ReqLineResult.parsed ⟨some m, h1, p1, pt⟩) hdrs c resp
        = ⟨err501, false, [], 1, -1⟩
    ∧ clienterror ("501") ("Not Implemented") ("Proxy does not implement this method")
        = [errorHeaders ("501") ("Not Implemented") body501.utf8ByteSize, body501] := by
  constructor
  · simp [doit, doitParsed, hm]
  · decide

/-- Witness for claim C3 at the concrete method POST. -/
theorem nonGET_501_witness :
    (("POST" : String) ≠ "GET")
    ∧ (doit (ReqLineResult.parsed ⟨some ("POST"), none, none, none⟩) [] false []
          = ⟨err501, false, [], 1, -1⟩
      ∧ clienterror ("501") ("Not Implemented") ("Proxy does not implement this method")
          = [errorHeaders ("501") ("Not Implemented") body501.utf8ByteSize, body501]) :=
  ⟨by decide, nonGET_501 ("POST") (by decide) none none none [] false []⟩

/-- Claim C4 counterexample: on a well formed GET request line whose host
cannot be retrieved (origin form target, host only in a Host header), doit
writes nothing at all to the client, in particular no 400 response, before
closing the connection. -/
theorem missingHost_cex :
    doit (ReqLineResult.parsed ⟨some ("GET"), none, some ("/index.html"), none⟩)
        [HdrLine.header ("Host") ("example.com"), HdrLine.blank] true []
      = ⟨[], false, [], 1, -1⟩ := rfl

/-- Claim C4 amended: for every accepted request line from which the host
cannot be retrieved and no default exists, doit writes no response at all,
dials no origin, closes the client connection once and returns -1. -/
theorem missingHost_silentClose (p1 pt : Option String) (hdrs : List HdrLine)
    (c : Bool) (resp : List Nat) :
    doit (ReqLineResult.parsed ⟨some ("GET"), none, p1, pt⟩) hdrs c resp
      = ⟨[], false, [], 1, -1⟩ := rfl

/-- Claim C8 counterexample: invoked with argc = 1, main prints the usage
message and exits without binding a socket, but the exit status is zero, not
a non zero status. -/
theorem usage_exit_zero_cex :
    mainStartup 1 true = ⟨true, some 0, false⟩
    ∧ (∀ n : Nat, (mainStartup 1 true).exitStatus = some n → n = 0) := by
  constructor
  · rfl
  · intro n hn
    simp [mainStartup] at hn
    omega

/-- Claim C8 amended: for every invocation with a number of arguments other
than exactly one positional argument, main prints the usage message and
exits with status zero, without binding any socket. -/
theorem usage_exit_zero (argc : Nat) (lo : Bool) (h : argc ≠ 2) :
    mainStartup argc lo = ⟨true, some 0, false⟩ := by
  simp [mainStartup, h]

/-- Witness for amended claim C8 at argc = 3. -/
theorem usage_exit_zero_witness :
    (3 : Nat) ≠ 2 ∧ mainStartup 3 true = ⟨true, some 0, false⟩ :=
  ⟨by decide, usage_exit_zero 3 true (by decide)⟩

/-- Claim C9, evaluated at the failing input: on a malformed request line
the client descriptor is closed twice, once inside doit and once more in
thread, not exactly once; on the successful forwarding path it is closed
exactly once. -/
theorem client_close_counts :
    (thread ReqLineResult.badRequestLine [] true []).2 = 2
    ∧ (thread (ReqLineResult.parsed
          ⟨some ("GET"), some ("example.com"), some ("/"), some ("80")⟩)
        [HdrLine.blank] true [1, 2]).2 = 1 := by
  constructor
  · rfl
  · rfl

/-- Claim C6 (rio_readnb modelled from the spec): for every origin response
of N bytes, N of any size including zero and sizes requiring several
transfer buffer cycles, the relay run by doit delivers exactly those N bytes
to the client, unmodified, in order, with no loss and no duplication,
stopping at end of stream. -/
theorem relay_byte_exact (path host port : String) (hdrs : List HdrLine)
    (resp : List Nat) :
    relayedBytes (doit (ReqLineResult.parsed
        ⟨some ("GET"), some host, some path, some port⟩) hdrs true resp) = resp := by
  rw [doit_parsed_GET, doitForward_connect]
  simp only [relayedBytes]
  cases hc : (collectHeaders hdrs).2 <;>
    simp [hc, List.filterMap_append, chunkBytes_map_text, chunkBytes_map_bytes,
      chunkBytes_comp_text, chunkBytes_comp_bytes, relayChunks_flatten, err400headers]

/-- Claim C5: a malformed request line aborts the connection with a 400 and
no origin dial at all, while a malformed header line after a well formed GET
request line only truncates header processing: doit still dials the origin
and sends the request built so far, terminated by the blank line. -/
theorem headerError_bestEffort (path host port : String) (hdrs : List HdrLine)
    (resp : List Nat) (he : (collectHeaders hdrs).2 = true) :
    doit ReqLineResult.badRequestLine hdrs true resp
        = ⟨err400request, false, [], 1, -1⟩
    ∧ doit (ReqLineResult.parsed ⟨some ("GET"), some host, some path, some port⟩)
          hdrs true resp
        = ⟨err400headers ++ (relayChunks resp).map Chunk.bytes, true,
           [buildRequest ("GET") path host port (collectHeaders hdrs).1], 0, 0⟩ := by
  constructor
  · rfl
  · rw [doit_parsed_GET, doitForward_connect, he]
    rfl

/-- Witness for claim C5 at a concrete truncated header stream. -/
theorem headerError_bestEffort_witness :
    (collectHeaders [HdrLine.header ("Accept") ("*/*"), HdrLine.bad]).2 = true
    ∧ (doit ReqLineResult.badRequestLine
          [HdrLine.header ("Accept") ("*/*"), HdrLine.bad] true [7]
        = ⟨err400request, false, [], 1, -1⟩
      ∧ doit (ReqLineResult.parsed
            ⟨some ("GET"), some ("example.com"), some ("/cat.jpg"), some ("8080")⟩)
            [HdrLine.header ("Accept") ("*/*"), HdrLine.bad] true [7]
        = ⟨err400headers ++ (relayChunks [7]).map Chunk.bytes, true,
           [buildRequest ("GET") ("/cat.jpg") ("example.com") ("8080")
              (collectHeaders [HdrLine.header ("Accept") ("*/*"), HdrLine.bad]).1],
           0, 0⟩) :=
  ⟨rfl, headerError_bestEffort ("/cat.jpg") ("example.com") ("8080")
      [HdrLine.header ("Accept") ("*/*"), HdrLine.bad] [7] rfl⟩

/-- Claim C10: when a malformed header line follows a well formed GET
request line with a resolvable host, the client connection carries, in
order, the complete 400 response (header block with Content-Length, then the
HTML body) followed by every relayed origin response chunk; the error
response does not suppress the dial, and the truncated request is sent. -/
theorem errorPage_then_relay (path host port : String) (hdrs : List HdrLine)
    (resp : List Nat) (he : (collectHeaders hdrs).2 = true) :
    (doit (ReqLineResult.parsed ⟨some ("GET"), some host, some path, some port⟩)
        hdrs true resp).clientOut
      = err400headers ++ (relayChunks resp).map Chunk.bytes
    ∧ err400headers
      = [Chunk.text (errorHeaders ("400") ("Bad Request") body400headers.utf8ByteSize),
         Chunk.text body400headers]
    ∧ (doit (ReqLineResult.parsed ⟨some ("GET"), some host, some path, some port⟩)
        hdrs true resp).originOut
      = [buildRequest ("GET") path host port (collectHeaders hdrs).1] := by
  refine ⟨?_, by decide, ?_⟩
  · rw [doit_parsed_GET, doitForward_connect, he]
    rfl
  · rw [doit_parsed_GET, doitForward_connect]
    rfl

/-- Witness for claim C10 at a concrete truncated header stream. -/
theorem errorPage_then_relay_witness :
    (collectHeaders [HdrLine.bad, HdrLine.header ("Accept") ("text/html")]).2 = true
    ∧ ((doit (ReqLineResult.parsed
            ⟨some ("GET"), some ("origin.example"), some ("/page"), some ("80")⟩)
          [HdrLine.bad, HdrLine.header ("Accept") ("text/html")] true [1, 2, 3]).clientOut
        = err400headers ++ (relayChunks [1, 2, 3]).map Chunk.bytes
      ∧ err400headers
        = [Chunk.text (errorHeaders ("400") ("Bad Request") body400headers.utf8ByteSize),
           Chunk.text body400headers]
      ∧ (doit (ReqLineResult.parsed
            ⟨some ("GET"), some ("origin.example"), some ("/page"), some ("80")⟩)
          [HdrLine.bad, HdrLine.header ("Accept") ("text/html")] true [1, 2, 3]).originOut
        = [buildRequest ("GET") ("/page") ("origin.example") ("80")
            (collectHeaders [HdrLine.bad, HdrLine.header ("Accept") ("text/html")]).1]) :=
  ⟨rfl, errorPage_then_relay ("/page") ("origin.example") ("80")
      [HdrLine.bad, HdrLine.header ("Accept") ("text/html")] [1, 2, 3] rfl⟩

/-- Claim C2: the managed header filter compares names by exact case
sensitive string equality, so every client header whose name differs from
all four managed names, even only in character case, is kept by the header
loop and forwarded verbatim into the outbound request, alongside the Host
line written by the proxy itself. -/
theorem unmanaged_forwarded (n v path host port : String) (rest : List HdrLine)
    (h1 : n ≠ "Host") (h2 : n ≠ "User-Agent") (h3 : n ≠ "Connection")
    (h4 : n ≠ "Proxy-Connection") :
    (collectHeaders (HdrLine.header n v :: rest)).1
        = (n, v) :: (collectHeaders rest).1
    ∧ renderHdr (n, v) ∈ outboundLines ("GET") path host port
        (collectHeaders (HdrLine.header n v :: rest)).1
    ∧ ("Host: " ++ host ++ ":" ++ port ++ "\r\n") ∈ outboundLines ("GET") path host port
        (collectHeaders (HdrLine.header n v :: rest)).1 := by
  have hm : isManagedName n = false := by
    simp [isManagedName, h1, h2, h3, h4]
  have hc : (collectHeaders (HdrLine.header n v :: rest)).1
      = (n, v) :: (collectHeaders rest).1 := by
    simp [collectHeaders, hm]
  refine ⟨hc, ?_, ?_⟩
  · rw [hc]
    simp [outboundLines]
  · simp [outboundLines]

/-- Witness for claim C2: a lowercase host header is forwarded verbatim and
the proxy Host line is present as well. -/
theorem unmanaged_forwarded_witness :
    ((("host" : String) ≠ "Host") ∧ (("host" : String) ≠ "User-Agent")
      ∧ (("host" : String) ≠ "Connection") ∧ (("host" : String) ≠ "Proxy-Connection"))
    ∧ ((collectHeaders [HdrLine.header ("host") ("evil.example")]).1
        = ("host", "evil.example") :: (collectHeaders []).1
      ∧ renderHdr ("host", "evil.example")
          ∈ outboundLines ("GET") ("/a") ("origin.example") ("80")
              (collectHeaders [HdrLine.header ("host") ("evil.example")]).1
      ∧ ("Host: " ++ "origin.example" ++ ":" ++ "80" ++ "\r\n")
          ∈ outboundLines ("GET") ("/a") ("origin.example") ("80")
              (collectHeaders [HdrLine.header ("host") ("evil.example")]).1) :=
  ⟨⟨by decide, by decide, by decide, by decide⟩,
    unmanaged_forwarded ("host") ("evil.example") ("/a") ("origin.example") ("80") []
      (by decide) (by decide) (by decide) (by decide)⟩

/-- Claim C1 counterexample: a well formed GET request whose host is carried
only by a valid Host header (origin form request line, so no authority in
the target) builds no outbound request at all: doit retrieves HOST before
reading any header line, the retrieval fails, and the connection is closed
with nothing sent to any origin, so the outbound request has no first line
and no headers. -/
theorem hostHeaderOnly_noOutbound_cex :
    doit (ReqLineResult.parsed ⟨some ("GET"), none, some ("/index.html"), none⟩)
        [HdrLine.header ("Host") ("example.com:8080"), HdrLine.blank] true []
      = ⟨[], false, [], 1, -1⟩ := rfl

/-- Claim C1 amended: for every well formed GET request carrying an absolute
URI authority (a request whose host would come only from a Host header is
instead closed with no outbound request), the outbound request doit sends
has as its first line exactly the GET request line with version HTTP/1.0,
and its header section holds exactly one Host, one User-Agent, one
Connection and one Proxy-Connection header, each with the mandated literal
value, however many headers with those names the client sent. -/
theorem outbound_request_shape (path host : String) (pt : Option String)
    (hdrs : List HdrLine) (resp : List Nat) :
    (doit (ReqLineResult.parsed ⟨some ("GET"), some host, some path, pt⟩)
        hdrs true resp).originOut
      = [buildRequest ("GET") path host (pt.getD default_port) (collectHeaders hdrs).1]
    ∧ (outboundLines ("GET") path host (pt.getD default_port)
        (collectHeaders hdrs).1).head?
      = some ("GET " ++ path ++ " HTTP/1.0\r\n")
    ∧ (outboundLines ("GET") path host (pt.getD default_port)
        (collectHeaders hdrs).1).tail
      = (outboundHeaderPairs host (pt.getD default_port)
          (collectHeaders hdrs).1).map renderHdr ++ ["\r\n"]
    ∧ pairsNamed ("Host")
        (outboundHeaderPairs host (pt.getD default_port) (collectHeaders hdrs).1)
      = [("Host", host ++ ":" ++ (pt.getD default_port))]
    ∧ pairsNamed ("User-Agent")
        (outboundHeaderPairs host (pt.getD default_port) (collectHeaders hdrs).1)
      = [("User-Agent", uaValue)]
    ∧ pairsNamed ("Connection")
        (outboundHeaderPairs host (pt.getD default_port) (collectHeaders hdrs).1)
      = [("Connection", "close")]
    ∧ pairsNamed ("Proxy-Connection")
        (outboundHeaderPairs host (pt.getD default_port) (collectHeaders hdrs).1)
      = [("Proxy-Connection", "close")] := by
  refine ⟨?_, ?_, ?_, ?_, ?_, ?_, ?_⟩
  · rw [doit_parsed_GET, doitForward_connect]
  · simp only [outboundLines, List.head?_cons, default_version]
    rw [show ("GET" ++ " " : String) = "GET " from rfl,
      String.append_assoc ("GET " ++ path),
      show (" " ++ "HTTP/1.0\r\n" : String) = " HTTP/1.0\r\n" from rfl]
  · simp only [outboundLines, List.tail_cons, outboundHeaderPairs, List.map_cons]
    rw [hostLine_renderHdr]
    rfl
  · have hp := pairsNamed_pass_nil ("Host") rfl hdrs
    simp only [pairsNamed, outboundHeaderPairs, List.filter_cons] at hp ⊢
    simp [hp]
  · have hp := pairsNamed_pass_nil ("User-Agent") rfl hdrs
    simp only [pairsNamed, outboundHeaderPairs, List.filter_cons] at hp ⊢
    simp [hp]
  · have hp := pairsNamed_pass_nil ("Connection") rfl hdrs
    simp only [pairsNamed, outboundHeaderPairs, List.filter_cons] at hp ⊢
    simp [hp]
  · have hp := pairsNamed_pass_nil ("Proxy-Connection") rfl hdrs
    simp only [pairsNamed, outboundHeaderPairs, List.filter_cons] at hp ⊢
    simp [hp]
